import Mathlib

/-!
Verification of the focus-state classifier of the ai-study-assistant
repository (`AIStateDetector` in `src/app/page.tsx`, with the landmark
helpers `calculateEAR` / `calculateHeadPose` from `src/lib/utils.ts`).

Modelling choices:
* JavaScript numbers are modelled as rationals (ℚ); timestamps
  (`Date.now()`) as integers (ℤ).
* `Math.sqrt` and the degree-scaled `Math.atan` (`Math.atan x * 180/π`)
  are not rational functions, so the two landmark helpers take them as
  explicit function parameters; every theorem about the landmark layer
  holds for an arbitrary choice of these functions.
* The mutable class instance becomes an explicit `DetectorState` record
  threaded through the methods; the `readonly` threshold constants are
  fields of that record so that frame properties are statable.
-/

namespace StudyAssistant

/-- Type `FocusState` from `src/types/index.ts`:
`'focused' | 'distracted' | 'relaxing' | 'drowsy' | 'unknown'`. -/
inductive FocusState where
  | focused
  | distracted
  | relaxing
  | drowsy
  | unknown
deriving DecidableEq, Repr

/-- The `headPose` record `{pitch, yaw, roll}` (degrees). -/
structure HeadPose where
  pitch : ℚ
  yaw : ℚ
  roll : ℚ
deriving DecidableEq, Repr

/-- Type `AIDetectionResult` from `src/types/index.ts` (the optional
`landmarks` passthrough field is omitted; it is a verbatim copy of the
input and carries no classifier content). -/
structure AIDetectionResult where
  state : FocusState
  confidence : ℚ
  headPose : HeadPose
  eyeAspectRatio : ℚ
deriving DecidableEq, Repr

/-- A MediaPipe face-mesh landmark point (only `x` and `y` are read by
the code under verification). -/
structure Landmark where
  x : ℚ
  y : ℚ
deriving DecidableEq, Repr

/-- The six `readonly` threshold constants of `AIStateDetector`. -/
structure DetectorConfig where
  DROWSY_EAR_THRESHOLD : ℚ
  DROWSY_TIME_THRESHOLD : ℤ
  DISTRACTION_PITCH_THRESHOLD : ℚ
  DISTRACTION_TIME_THRESHOLD : ℤ
  RELAXING_YAW_THRESHOLD : ℚ
  RELAXING_TIME_THRESHOLD : ℤ
deriving DecidableEq, Repr

/-- The literal values assigned in the class body:
`0.25`, `25000`, `20`, `15000`, `30`, `30000`. -/
def defaultConfig : DetectorConfig where
  DROWSY_EAR_THRESHOLD := 1/4
  DROWSY_TIME_THRESHOLD := 25000
  DISTRACTION_PITCH_THRESHOLD := 20
  DISTRACTION_TIME_THRESHOLD := 15000
  RELAXING_YAW_THRESHOLD := 30
  RELAXING_TIME_THRESHOLD := 30000

/-- The mutable fields of an `AIStateDetector` instance:
`currentState`, `stateStartTime`, `stateTimers` (a `Map` that is only
ever cleared, modelled as an association list), plus the `readonly`
configuration constants. -/
structure DetectorState where
  config : DetectorConfig
  currentState : FocusState
  stateStartTime : ℤ
  stateTimers : List (FocusState × ℤ)
deriving DecidableEq, Repr

/-- Method `private resetTimers()`: clears `stateTimers` and sets
`stateStartTime = Date.now()`. -/
def resetTimers (s : DetectorState) (now : ℤ) : DetectorState :=
  { s with stateTimers := [], stateStartTime := now }

/-- The constructor `new AIStateDetector()`: field initialisers
(`currentState = 'unknown'`, `stateStartTime = 0`, empty map, the
constant thresholds) followed by `this.resetTimers()`. -/
def AIStateDetector.new (now : ℤ) : DetectorState :=
  resetTimers
    { config := defaultConfig, currentState := FocusState.unknown,
      stateStartTime := 0, stateTimers := [] } now

/-- Method `public reset()`: `currentState = 'unknown'; this.resetTimers()`. -/
def reset (s : DetectorState) (now : ℤ) : DetectorState :=
  resetTimers { s with currentState := FocusState.unknown } now

/-- Method `public getCurrentState()`. -/
def getCurrentState (s : DetectorState) : FocusState :=
  s.currentState

/-- Method `private determineImmediateState(headPose, eyeAspectRatio)`. -/
def determineImmediateState (s : DetectorState) (headPose : HeadPose)
    (eyeAspectRatio : ℚ) : FocusState :=
  if eyeAspectRatio < s.config.DROWSY_EAR_THRESHOLD then
    FocusState.drowsy
  else if headPose.pitch > s.config.DISTRACTION_PITCH_THRESHOLD then
    FocusState.distracted
  else if |headPose.yaw| > s.config.RELAXING_YAW_THRESHOLD ∨ headPose.pitch < -15 then
    FocusState.relaxing
  else
    FocusState.focused

/-- Method `private getPreviousValidState()`: unconditionally `'focused'`. -/
def getPreviousValidState : FocusState :=
  FocusState.focused

/-- Method `private applyTimeBasedLogic(immediateState)`: returns the emitted
state and the updated instance (the JS method mutates `this`); `now`
stands for the `Date.now()` read at the top of the method. -/
def applyTimeBasedLogic (s : DetectorState) (immediateState : FocusState)
    (now : ℤ) : FocusState × DetectorState :=
  let s1 :=
    if immediateState ≠ s.currentState then
      { s with stateStartTime := now, currentState := immediateState }
    else s
  let stateTime := now - s1.stateStartTime
  match immediateState with
  | FocusState.drowsy =>
      (if stateTime ≥ s1.config.DROWSY_TIME_THRESHOLD then FocusState.drowsy
       else getPreviousValidState, s1)
  | FocusState.distracted =>
      (if stateTime ≥ s1.config.DISTRACTION_TIME_THRESHOLD then FocusState.distracted
       else getPreviousValidState, s1)
  | FocusState.relaxing =>
      (if stateTime ≥ s1.config.RELAXING_TIME_THRESHOLD then FocusState.relaxing
       else getPreviousValidState, s1)
  | FocusState.focused => (FocusState.focused, s1)
  | FocusState.unknown => (FocusState.unknown, s1)

/-- Method `private calculateConfidence(headPose, eyeAspectRatio, state)`:
the `switch` assigns `confidence` in every branch (the initial `0.5` is
dead), then the result is clamped by
`Math.max(0.1, Math.min(1.0, confidence))`. -/
def calculateConfidence (s : DetectorState) (headPose : HeadPose)
    (eyeAspectRatio : ℚ) (state : FocusState) : ℚ :=
  let confidence :=
    match state with
    | FocusState.drowsy =>
        max (1/10) (1 - eyeAspectRatio / s.config.DROWSY_EAR_THRESHOLD)
    | FocusState.distracted =>
        let pitchFactor := min (headPose.pitch / 45) 1
        max (3/10) pitchFactor
    | FocusState.relaxing =>
        let yawFactor := min (|headPose.yaw| / 60) 1
        max (3/10) yawFactor
    | FocusState.focused =>
        let pitchScore := 1 - |headPose.pitch| / 45
        let yawScore := 1 - |headPose.yaw| / 60
        let earScore : ℚ :=
          if eyeAspectRatio > s.config.DROWSY_EAR_THRESHOLD then 1 else 0
        (pitchScore + yawScore + earScore) / 3
    | FocusState.unknown => 1/10
  max (1/10) (min 1 confidence)

/-- The tail of `analyzeFaceLandmarks` once `headPose` and `avgEAR` are
computed: immediate state, time-based transition, confidence, result
record. -/
def classifyMeasurement (s : DetectorState) (headPose : HeadPose)
    (avgEAR : ℚ) (now : ℤ) : AIDetectionResult × DetectorState :=
  let immediateState := determineImmediateState s headPose avgEAR
  let p := applyTimeBasedLogic s immediateState now
  let confidence := calculateConfidence p.2 headPose avgEAR immediateState
  (⟨p.1, confidence, headPose, avgEAR⟩, p.2)

/-- Function `calculateEAR(eyeLandmarks)` from `src/lib/utils.ts`; `sqrt`
abstracts `Math.sqrt`. -/
def calculateEAR (sqrt : ℚ → ℚ) (eyeLandmarks : List Landmark) : ℚ :=
  if eyeLandmarks.length < 6 then 0
  else
    let p := fun i => eyeLandmarks.getD i ⟨0, 0⟩
    let vertical1 := sqrt (((p 1).x - (p 5).x) ^ 2 + ((p 1).y - (p 5).y) ^ 2)
    let vertical2 := sqrt (((p 2).x - (p 4).x) ^ 2 + ((p 2).y - (p 4).y) ^ 2)
    let horizontal := sqrt (((p 0).x - (p 3).x) ^ 2 + ((p 0).y - (p 3).y) ^ 2)
    (vertical1 + vertical2) / (2 * horizontal)

/-- Function `calculateHeadPose(landmarks)` from `src/lib/utils.ts`; `atanDeg`
abstracts `x ↦ Math.atan(x) * (180 / Math.PI)`.  Out-of-range indexing
(`undefined`, caught by the `!nose || ...` guard) is modelled by
`List.get?`. -/
def calculateHeadPose (atanDeg : ℚ → ℚ) (landmarks : List Landmark) : HeadPose :=
  if landmarks.length = 0 then ⟨0, 0, 0⟩
  else
    match landmarks.get? 1, landmarks.get? 33, landmarks.get? 263,
        landmarks.get? 175, landmarks.get? 10 with
    | some nose, some leftEye, some rightEye, some chin, some forehead =>
        let eyeDistance := |leftEye.x - rightEye.x|
        let noseToLeftEye := |nose.x - leftEye.x|
        let noseToRightEye := |nose.x - rightEye.x|
        let yaw :=
          if eyeDistance > 0 then
            ((noseToRightEye - noseToLeftEye) / eyeDistance) * 45
          else 0
        let verticalDistance := |forehead.y - chin.y|
        let noseVerticalPosition := (nose.y - forehead.y) / verticalDistance
        let pitch := (noseVerticalPosition - 2/5) * 90
        let eyeSlope := (rightEye.y - leftEye.y) / (rightEye.x - leftEye.x)
        let roll := atanDeg eyeSlope
        ⟨max (-90) (min 90 pitch), max (-90) (min 90 yaw),
         max (-45) (min 45 roll)⟩
    | _, _, _, _, _ => ⟨0, 0, 0⟩

/-- The left/right eye landmark index lists of `analyzeFaceLandmarks`. -/
def leftEyeIndices : List Nat := [33, 7, 163, 144, 145, 153]

/-- Right-eye indices. -/
def rightEyeIndices : List Nat := [362, 382, 381, 380, 374, 373]

/-- Method `public analyzeFaceLandmarks(landmarks)`: a `null`/`undefined`
argument is `none`; `.filter(Boolean)` over possibly-`undefined`
indexed reads is `filterMap id` over `List.get?`. -/
def analyzeFaceLandmarks (sqrt atanDeg : ℚ → ℚ) (s : DetectorState)
    (landmarks : Option (List Landmark)) (now : ℤ) :
    AIDetectionResult × DetectorState :=
  match landmarks with
  | none => (⟨FocusState.unknown, 0, ⟨0, 0, 0⟩, 0⟩, s)
  | some lms =>
    if lms.length = 0 then (⟨FocusState.unknown, 0, ⟨0, 0, 0⟩, 0⟩, s)
    else
      let headPose := calculateHeadPose atanDeg lms
      let leftEyeLandmarks := (leftEyeIndices.map (fun i => lms.get? i)).filterMap id
      let rightEyeLandmarks := (rightEyeIndices.map (fun i => lms.get? i)).filterMap id
      let leftEAR := calculateEAR sqrt leftEyeLandmarks
      let rightEAR := calculateEAR sqrt rightEyeLandmarks
      let avgEAR := (leftEAR + rightEAR) / 2
      classifyMeasurement s headPose avgEAR now

/-- The per-candidate hold duration used by `applyTimeBasedLogic`
(`Focused`/`Unknown` have no hold). -/
def holdMs (cfg : DetectorConfig) (c : FocusState) : ℤ :=
  match c with
  | FocusState.drowsy => cfg.DROWSY_TIME_THRESHOLD
  | FocusState.distracted => cfg.DISTRACTION_TIME_THRESHOLD
  | FocusState.relaxing => cfg.RELAXING_TIME_THRESHOLD
  | _ => 0

/-- Run one classification call per timestamp, with a fixed candidate
state fed to `applyTimeBasedLogic`; returns the emitted states and the
final detector state. -/
def runCandidates (s : DetectorState) (c : FocusState) :
    List ℤ → List FocusState × DetectorState
  | [] => ([], s)
  | t :: ts =>
    let p := applyTimeBasedLogic s c t
    let q := runCandidates p.2 c ts
    (p.1 :: q.1, q.2)

/-- The successive detector states along a list of measurement calls
(`(headPose, avgEAR, now)` per call), starting state included. -/
def stateTrace (s : DetectorState) : List (HeadPose × ℚ × ℤ) → List DetectorState
  | [] => [s]
  | c :: cs => s :: stateTrace (classifyMeasurement s c.1 c.2.1 c.2.2).2 cs


/-- A detector state sitting inside a Drowsy hold window: the candidate
Drowsy was entered at time 0. -/
def exampleHoldState : DetectorState :=
  { config := defaultConfig, currentState := FocusState.drowsy,
    stateStartTime := 0, stateTimers := [] }

/-! ## Basic lemmas about the state transition -/

/-- The detector state returned by `applyTimeBasedLogic` is exactly the
candidate-change update of step 1 of the method. -/
theorem applyTimeBasedLogic_snd (s : DetectorState) (c : FocusState) (now : ℤ) :
    (applyTimeBasedLogic s c now).2 =
      if c ≠ s.currentState then
        { s with stateStartTime := now, currentState := c }
      else s := by
  cases c <;> rfl

/-- The configuration constants are untouched by `applyTimeBasedLogic`. -/
theorem applyTimeBasedLogic_config (s : DetectorState) (c : FocusState) (now : ℤ) :
    (applyTimeBasedLogic s c now).2.config = s.config := by
  rw [applyTimeBasedLogic_snd]; split <;> rfl

/-- The timer map is untouched by `applyTimeBasedLogic`. -/
theorem applyTimeBasedLogic_stateTimers (s : DetectorState) (c : FocusState) (now : ℤ) :
    (applyTimeBasedLogic s c now).2.stateTimers = s.stateTimers := by
  rw [applyTimeBasedLogic_snd]; split <;> rfl

/-- After `applyTimeBasedLogic` the stored `currentState` is the candidate. -/
theorem applyTimeBasedLogic_currentState (s : DetectorState) (c : FocusState) (now : ℤ) :
    (applyTimeBasedLogic s c now).2.currentState = c := by
  rw [applyTimeBasedLogic_snd]
  split
  · rfl
  · rename_i h
    exact (not_not.mp h).symm

/-- The `stateStartTime` after `applyTimeBasedLogic`: refreshed to `now`
exactly when the candidate differs from the stored state. -/
theorem applyTimeBasedLogic_stateStartTime (s : DetectorState) (c : FocusState) (now : ℤ) :
    (applyTimeBasedLogic s c now).2.stateStartTime =
      if c ≠ s.currentState then now else s.stateStartTime := by
  rw [applyTimeBasedLogic_snd]; split <;> rfl

/-- `classifyMeasurement` updates the state exactly as
`applyTimeBasedLogic` on the immediate state does. -/
theorem classifyMeasurement_snd (s : DetectorState) (pose : HeadPose) (ear : ℚ) (now : ℤ) :
    (classifyMeasurement s pose ear now).2 =
      (applyTimeBasedLogic s (determineImmediateState s pose ear) now).2 := rfl

/-- A candidate equal to the stored state leaves the state record alone
and is emitted iff it has been held for its threshold. -/
theorem applyTimeBasedLogic_steady (s : DetectorState) (c : FocusState) (now : ℤ)
    (hcur : s.currentState = c)
    (hc : c = FocusState.drowsy ∨ c = FocusState.distracted ∨ c = FocusState.relaxing) :
    applyTimeBasedLogic s c now =
      (if holdMs s.config c ≤ now - s.stateStartTime then c else FocusState.focused, s) := by
  rcases hc with rfl | rfl | rfl <;>
    simp [applyTimeBasedLogic, holdMs, getPreviousValidState, hcur, ge_iff_le]

/-- A candidate differing from the stored state restarts the clock and is
emitted iff its hold threshold is at most zero. -/
theorem applyTimeBasedLogic_fresh (s : DetectorState) (c : FocusState) (now : ℤ)
    (hne : c ≠ s.currentState)
    (hc : c = FocusState.drowsy ∨ c = FocusState.distracted ∨ c = FocusState.relaxing) :
    applyTimeBasedLogic s c now =
      (if holdMs s.config c ≤ 0 then c else FocusState.focused,
       { s with stateStartTime := now, currentState := c }) := by
  rcases hc with rfl | rfl | rfl <;>
    simp [applyTimeBasedLogic, holdMs, getPreviousValidState, hne, ge_iff_le]

/-- The immediate-state rule never produces `Unknown`. -/
theorem determineImmediateState_ne_unknown (s : DetectorState) (pose : HeadPose) (ear : ℚ) :
    determineImmediateState s pose ear ≠ FocusState.unknown := by
  unfold determineImmediateState
  split_ifs <;> simp

/-- Confidence only reads the configuration constants of the state. -/
theorem calculateConfidence_congr (s t : DetectorState) (pose : HeadPose) (ear : ℚ)
    (st : FocusState) (h : s.config = t.config) :
    calculateConfidence s pose ear st = calculateConfidence t pose ear st := by
  unfold calculateConfidence
  rw [h]

/-- The clamp `max 0.1 (min 1 c)` always lands in `[0.1, 1]`. -/
theorem calculateConfidence_mem (s : DetectorState) (pose : HeadPose) (ear : ℚ)
    (st : FocusState) :
    1/10 ≤ calculateConfidence s pose ear st ∧ calculateConfidence s pose ear st ≤ 1 := by
  unfold calculateConfidence
  constructor
  · exact le_max_left _ _
  · exact max_le (by norm_num) (min_le_left _ _)

/-! ## Claim C3: priority order of the immediate-state rule -/

/-- C3: the immediate-state rule tests, in order and with first match
winning: EAR below the drowsy threshold (Drowsy); then pitch above the
distraction threshold (Distracted); then large absolute yaw or pitch
below -15 (Relaxing); else Focused.  In particular a measurement with
EAR below the drowsy threshold and pitch above the distraction
threshold resolves to Drowsy. -/
theorem claim3_priority_order (s : DetectorState) (pose : HeadPose) (ear : ℚ) :
    (ear < s.config.DROWSY_EAR_THRESHOLD →
      determineImmediateState s pose ear = FocusState.drowsy)
    ∧ (¬ ear < s.config.DROWSY_EAR_THRESHOLD →
        pose.pitch > s.config.DISTRACTION_PITCH_THRESHOLD →
        determineImmediateState s pose ear = FocusState.distracted)
    ∧ (¬ ear < s.config.DROWSY_EAR_THRESHOLD →
        ¬ pose.pitch > s.config.DISTRACTION_PITCH_THRESHOLD →
        (|pose.yaw| > s.config.RELAXING_YAW_THRESHOLD ∨ pose.pitch < -15) →
        determineImmediateState s pose ear = FocusState.relaxing)
    ∧ (¬ ear < s.config.DROWSY_EAR_THRESHOLD →
        ¬ pose.pitch > s.config.DISTRACTION_PITCH_THRESHOLD →
        ¬ (|pose.yaw| > s.config.RELAXING_YAW_THRESHOLD ∨ pose.pitch < -15) →
        determineImmediateState s pose ear = FocusState.focused)
    ∧ (ear < s.config.DROWSY_EAR_THRESHOLD →
        pose.pitch > s.config.DISTRACTION_PITCH_THRESHOLD →
        determineImmediateState s pose ear = FocusState.drowsy) := by
  unfold determineImmediateState
  refine ⟨fun h1 => ?_, fun h1 h2 => ?_, fun h1 h2 h3 => ?_, fun h1 h2 h3 => ?_,
    fun h1 h2 => ?_⟩
  · rw [if_pos h1]
  · rw [if_neg h1, if_pos h2]
  · rw [if_neg h1, if_neg h2, if_pos h3]
  · rw [if_neg h1, if_neg h2, if_neg h3]
  · rw [if_pos h1]

/-- Witness for C3 at the Drowsy/Distracted tie-break input
`pitch = 25, EAR = 0.1`. -/
theorem claim3_priority_order_witness :
    ((1:ℚ)/10 < (AIStateDetector.new 0).config.DROWSY_EAR_THRESHOLD)
    ∧ ((⟨25, 0, 0⟩ : HeadPose).pitch > (AIStateDetector.new 0).config.DISTRACTION_PITCH_THRESHOLD)
    ∧ determineImmediateState (AIStateDetector.new 0) ⟨25, 0, 0⟩ (1/10) = FocusState.drowsy := by
  have h1 : (1:ℚ)/10 < (AIStateDetector.new 0).config.DROWSY_EAR_THRESHOLD := by
    norm_num [AIStateDetector.new, resetTimers, defaultConfig]
  have h2 : ((⟨25, 0, 0⟩ : HeadPose)).pitch > (AIStateDetector.new 0).config.DISTRACTION_PITCH_THRESHOLD := by
    norm_num [AIStateDetector.new, resetTimers, defaultConfig]
  exact ⟨h1, h2, (claim3_priority_order (AIStateDetector.new 0) ⟨25, 0, 0⟩ (1/10)).2.2.2.2 h1 h2⟩

/-! ## Claim C7: reset -/

/-- C7: `reset()` sets `currentState` to Unknown and `stateStartTime` to
now, leaves the six configuration constants unchanged, and (since the
timer map is empty in every reachable state) leaves `stateTimers`
unchanged as well. -/
theorem claim7_reset_frame (s : DetectorState) (now : ℤ) :
    (reset s now).currentState = FocusState.unknown
    ∧ (reset s now).stateStartTime = now
    ∧ (reset s now).config = s.config
    ∧ (s.stateTimers = [] → (reset s now).stateTimers = s.stateTimers) := by
  refine ⟨rfl, rfl, rfl, fun h => ?_⟩
  simp [reset, resetTimers, h]

/-- Witness for C7 on a freshly constructed detector. -/
theorem claim7_reset_frame_witness :
    (AIStateDetector.new 0).stateTimers = []
    ∧ (reset (AIStateDetector.new 0) 99).currentState = FocusState.unknown
    ∧ (reset (AIStateDetector.new 0) 99).stateStartTime = 99
    ∧ (reset (AIStateDetector.new 0) 99).config = (AIStateDetector.new 0).config
    ∧ (reset (AIStateDetector.new 0) 99).stateTimers = (AIStateDetector.new 0).stateTimers := by
  have h := claim7_reset_frame (AIStateDetector.new 0) 99
  exact ⟨rfl, h.1, h.2.1, h.2.2.1, h.2.2.2 rfl⟩

/-! ## Claim C10: null or empty landmark set -/

/-- C10: a `null` or empty landmark array yields exactly the sentinel
result (Unknown, confidence 0, zero pose, zero EAR) and leaves the
detector state untouched. -/
theorem claim10_empty_landmarks (sqrt atanDeg : ℚ → ℚ) (s : DetectorState) (now : ℤ) :
    analyzeFaceLandmarks sqrt atanDeg s none now
        = (⟨FocusState.unknown, 0, ⟨0, 0, 0⟩, 0⟩, s)
    ∧ analyzeFaceLandmarks sqrt atanDeg s (some []) now
        = (⟨FocusState.unknown, 0, ⟨0, 0, 0⟩, 0⟩, s) :=
  ⟨rfl, rfl⟩

/-! ## Claim C2: which state the confidence formula is applied to -/

/-- Counterexample to C2: at time 1000 inside the Drowsy hold window
(EAR 0.1, neutral pose) the emitted state is Focused but the returned
confidence is the Drowsy formula value 0.6, not the Focused formula
value 2/3; so the confidence is not a function of the emitted state. -/
theorem claim2_confidence_counterexample :
    (classifyMeasurement exampleHoldState ⟨0, 0, 0⟩ (1/10) 1000).1.state = FocusState.focused
    ∧ (classifyMeasurement exampleHoldState ⟨0, 0, 0⟩ (1/10) 1000).1.confidence = 3/5
    ∧ calculateConfidence exampleHoldState ⟨0, 0, 0⟩ (1/10) FocusState.focused = 2/3
    ∧ (classifyMeasurement exampleHoldState ⟨0, 0, 0⟩ (1/10) 1000).1.confidence
        ≠ calculateConfidence exampleHoldState ⟨0, 0, 0⟩ (1/10)
            ((classifyMeasurement exampleHoldState ⟨0, 0, 0⟩ (1/10) 1000).1.state) := by
  have hs : (classifyMeasurement exampleHoldState ⟨0, 0, 0⟩ (1/10) 1000).1.state = FocusState.focused := by
    simp [classifyMeasurement, determineImmediateState, applyTimeBasedLogic,
      getPreviousValidState, exampleHoldState, defaultConfig]
    norm_num
  have hc : (classifyMeasurement exampleHoldState ⟨0, 0, 0⟩ (1/10) 1000).1.confidence = 3/5 := by
    simp [classifyMeasurement, determineImmediateState, applyTimeBasedLogic,
      getPreviousValidState, calculateConfidence, exampleHoldState, defaultConfig]
    norm_num
  have hf : calculateConfidence exampleHoldState ⟨0, 0, 0⟩ (1/10) FocusState.focused = 2/3 := by
    simp [calculateConfidence, exampleHoldState, defaultConfig]
    norm_num
  refine ⟨hs, hc, hf, ?_⟩
  rw [hs, hc, hf]
  norm_num

/-- C2 amended: the returned confidence is the per-state formula applied
to the immediate (candidate) state, not to the emitted state. -/
theorem claim2_confidence_amended (s : DetectorState) (pose : HeadPose) (ear : ℚ) (now : ℤ) :
    (classifyMeasurement s pose ear now).1.confidence
      = calculateConfidence s pose ear (determineImmediateState s pose ear) :=
  calculateConfidence_congr _ _ pose ear _
    (applyTimeBasedLogic_config s (determineImmediateState s pose ear) now)

/-! ## Claim C9: totality and frame of analyzeFaceLandmarks -/

/-- Configuration constants are untouched by `analyzeFaceLandmarks`. -/
theorem analyzeFaceLandmarks_config (sqrt atanDeg : ℚ → ℚ) (s : DetectorState)
    (landmarks : Option (List Landmark)) (now : ℤ) :
    (analyzeFaceLandmarks sqrt atanDeg s landmarks now).2.config = s.config := by
  cases landmarks with
  | none => rfl
  | some lms =>
    by_cases h : lms.length = 0
    · simp [analyzeFaceLandmarks, h]
    · simp only [analyzeFaceLandmarks, h, if_false, ite_false]
      rw [classifyMeasurement_snd, applyTimeBasedLogic_config]

/-- The timer map is untouched by `analyzeFaceLandmarks`. -/
theorem analyzeFaceLandmarks_stateTimers (sqrt atanDeg : ℚ → ℚ) (s : DetectorState)
    (landmarks : Option (List Landmark)) (now : ℤ) :
    (analyzeFaceLandmarks sqrt atanDeg s landmarks now).2.stateTimers = s.stateTimers := by
  cases landmarks with
  | none => rfl
  | some lms =>
    by_cases h : lms.length = 0
    · simp [analyzeFaceLandmarks, h]
    · simp only [analyzeFaceLandmarks, h, if_false, ite_false]
      rw [classifyMeasurement_snd, applyTimeBasedLogic_stateTimers]

/-- C9: the classify entry point is a total function in this embedding
(it always returns a result pair), and its only effect on the detector
state is through the `currentState` and `stateStartTime` fields: the
post state is the pre state with at most those two fields replaced. -/
theorem claim9_total_frame (sqrt atanDeg : ℚ → ℚ) (s : DetectorState)
    (landmarks : Option (List Landmark)) (now : ℤ) :
    (analyzeFaceLandmarks sqrt atanDeg s landmarks now).2 =
      { s with
        currentState := (analyzeFaceLandmarks sqrt atanDeg s landmarks now).2.currentState,
        stateStartTime := (analyzeFaceLandmarks sqrt atanDeg s landmarks now).2.stateStartTime } := by
  have hc := analyzeFaceLandmarks_config sqrt atanDeg s landmarks now
  have ht := analyzeFaceLandmarks_stateTimers sqrt atanDeg s landmarks now
  have h : (analyzeFaceLandmarks sqrt atanDeg s landmarks now).2 =
      ⟨s.config, (analyzeFaceLandmarks sqrt atanDeg s landmarks now).2.currentState,
       (analyzeFaceLandmarks sqrt atanDeg s landmarks now).2.stateStartTime, s.stateTimers⟩ := by
    rw [← hc, ← ht]
  exact h

/-! ## Claim C1: hold windows -/

/-- While the candidate equals the stored state, each call leaves the
state record alone and emits by the hold test against the stored clock
base. -/
theorem runCandidates_steady (c : FocusState)
    (hc : c = FocusState.drowsy ∨ c = FocusState.distracted ∨ c = FocusState.relaxing) :
    ∀ (ts : List ℤ) (s : DetectorState), s.currentState = c →
      runCandidates s c ts =
        (ts.map (fun t => if holdMs s.config c ≤ t - s.stateStartTime then c
          else FocusState.focused), s)
  | [], s, h => by simp [runCandidates]
  | t :: ts, s, h => by
    simp only [runCandidates]
    rw [applyTimeBasedLogic_steady s c t h hc]
    rw [runCandidates_steady c hc ts s h]
    simp

/-- C1: once a non-Focused candidate first appears (at time `t0`), each
later call with the same candidate emits Focused while `now - t0` is
below the candidate's hold duration and emits the candidate once
`now - t0` reaches it; a Focused candidate is always emitted at once. -/
theorem claim1_hold_windows (s s2 : DetectorState) (c : FocusState) (t0 now : ℤ)
    (ts : List ℤ)
    (hc : c = FocusState.drowsy ∨ c = FocusState.distracted ∨ c = FocusState.relaxing)
    (hne : s.currentState ≠ c) :
    (runCandidates s c (t0 :: ts)).1
        = (t0 :: ts).map (fun t => if holdMs s.config c ≤ t - t0 then c
            else FocusState.focused)
    ∧ (applyTimeBasedLogic s2 FocusState.focused now).1 = FocusState.focused := by
  constructor
  · simp only [runCandidates]
    rw [applyTimeBasedLogic_fresh s c t0 (Ne.symm hne) hc]
    rw [runCandidates_steady c hc ts _ rfl]
    simp
  · rfl

/-- Witness for C1: a fresh detector fed the Drowsy candidate at times
5, 10000 and 25005 emits Focused, Focused, Drowsy (hold is 25000 ms,
entered at 5). -/
theorem claim1_hold_windows_witness :
    (AIStateDetector.new 0).currentState ≠ FocusState.drowsy
    ∧ (runCandidates (AIStateDetector.new 0) FocusState.drowsy [5, 10000, 25005]).1
        = [FocusState.focused, FocusState.focused, FocusState.drowsy]
    ∧ (applyTimeBasedLogic (AIStateDetector.new 0) FocusState.focused 7).1 = FocusState.focused := by
  have hne : (AIStateDetector.new 0).currentState ≠ FocusState.drowsy := by
    simp [AIStateDetector.new, resetTimers]
  have h := claim1_hold_windows (AIStateDetector.new 0) (AIStateDetector.new 0)
    FocusState.drowsy 5 7 [10000, 25005] (Or.inl rfl) hne
  refine ⟨hne, ?_, h.2⟩
  rw [h.1]
  norm_num [holdMs, AIStateDetector.new, resetTimers, defaultConfig]

/-! ## Claim C5: confidence range -/

/-- Decomposition of `analyzeFaceLandmarks` on a non-empty landmark
list. -/
theorem analyzeFaceLandmarks_nonempty (sqrt atanDeg : ℚ → ℚ) (s : DetectorState)
    (lms : List Landmark) (now : ℤ) (h : ¬ lms.length = 0) :
    analyzeFaceLandmarks sqrt atanDeg s (some lms) now =
      classifyMeasurement s (calculateHeadPose atanDeg lms)
        ((calculateEAR sqrt ((leftEyeIndices.map (fun i => lms.get? i)).filterMap id)
          + calculateEAR sqrt ((rightEyeIndices.map (fun i => lms.get? i)).filterMap id)) / 2)
        now := by
  simp [analyzeFaceLandmarks, h]

/-- Counterexample to C5: an empty landmark set returns confidence
exactly 0, outside the claimed interval `[0.1, 1]`. -/
theorem claim5_range_counterexample :
    (analyzeFaceLandmarks (fun _ => 0) (fun _ => 0) (AIStateDetector.new 0) (some []) 0).1.confidence = 0
    ∧ ¬ (1/10 ≤ (analyzeFaceLandmarks (fun _ => 0) (fun _ => 0) (AIStateDetector.new 0) (some []) 0).1.confidence) := by
  have h : (analyzeFaceLandmarks (fun _ => 0) (fun _ => 0) (AIStateDetector.new 0) (some []) 0).1.confidence = 0 := rfl
  refine ⟨h, ?_⟩
  rw [h]
  norm_num

/-- C5 amended: for every invocation with a non-empty landmark set the
returned confidence lies in `[0.1, 1]`; an empty or missing set returns
the sentinel confidence 0. -/
theorem claim5_confidence_range (sqrt atanDeg : ℚ → ℚ) (s : DetectorState)
    (lms : List Landmark) (now : ℤ) (h : lms ≠ []) :
    1/10 ≤ (analyzeFaceLandmarks sqrt atanDeg s (some lms) now).1.confidence
    ∧ (analyzeFaceLandmarks sqrt atanDeg s (some lms) now).1.confidence ≤ 1 := by
  have hlen : ¬ lms.length = 0 := by simpa using h
  rw [analyzeFaceLandmarks_nonempty sqrt atanDeg s lms now hlen]
  exact calculateConfidence_mem _ _ _ _

/-- Witness for C5 (amended) on a one-point landmark list. -/
theorem claim5_confidence_range_witness :
    ([(⟨0, 0⟩ : Landmark)] ≠ [])
    ∧ 1/10 ≤ (analyzeFaceLandmarks (fun _ => 0) (fun _ => 0) (AIStateDetector.new 0)
        (some [⟨0, 0⟩]) 0).1.confidence
    ∧ (analyzeFaceLandmarks (fun _ => 0) (fun _ => 0) (AIStateDetector.new 0)
        (some [⟨0, 0⟩]) 0).1.confidence ≤ 1 := by
  have h : [(⟨0, 0⟩ : Landmark)] ≠ [] := by simp
  exact ⟨h, (claim5_confidence_range _ _ _ _ _ h).1, (claim5_confidence_range _ _ _ _ _ h).2⟩

/-! ## Claim C6: monotonicity of the Drowsy confidence -/

/-- Counterexample to C6: EAR values 0.23 and 0.24 both trigger Drowsy
(below 0.25) yet give the same confidence 0.1, so confidence does not
strictly increase as EAR decreases over the whole Drowsy range. -/
theorem claim6_strict_counterexample :
    (0:ℚ) ≤ 23/100
    ∧ (23:ℚ)/100 < 24/100
    ∧ (24:ℚ)/100 < (AIStateDetector.new 0).config.DROWSY_EAR_THRESHOLD
    ∧ calculateConfidence (AIStateDetector.new 0) ⟨0, 0, 0⟩ (23/100) FocusState.drowsy
        = calculateConfidence (AIStateDetector.new 0) ⟨0, 0, 0⟩ (24/100) FocusState.drowsy
    ∧ ¬ (calculateConfidence (AIStateDetector.new 0) ⟨0, 0, 0⟩ (24/100) FocusState.drowsy
          < calculateConfidence (AIStateDetector.new 0) ⟨0, 0, 0⟩ (23/100) FocusState.drowsy) := by
  have h23 : calculateConfidence (AIStateDetector.new 0) ⟨0, 0, 0⟩ (23/100) FocusState.drowsy = 1/10 := by
    simp [calculateConfidence, AIStateDetector.new, resetTimers, defaultConfig, max_def, min_def]
    norm_num
  have h24 : calculateConfidence (AIStateDetector.new 0) ⟨0, 0, 0⟩ (24/100) FocusState.drowsy = 1/10 := by
    simp [calculateConfidence, AIStateDetector.new, resetTimers, defaultConfig, max_def, min_def]
    norm_num
  refine ⟨by norm_num, by norm_num, ?_, ?_, ?_⟩
  · norm_num [AIStateDetector.new, resetTimers, defaultConfig]
  · rw [h23, h24]
  · rw [h23, h24]
    norm_num

/-- On the Drowsy range the full clamped confidence collapses to
`max 0.1 (1 - EAR / threshold)`. -/
theorem calculateConfidence_drowsy_eq (s : DetectorState) (pose : HeadPose) (e : ℚ)
    (hT : 0 < s.config.DROWSY_EAR_THRESHOLD) (he : 0 ≤ e) :
    calculateConfidence s pose e FocusState.drowsy
      = max (1/10) (1 - e / s.config.DROWSY_EAR_THRESHOLD) := by
  have h1 : (1 : ℚ) - e / s.config.DROWSY_EAR_THRESHOLD ≤ 1 := by
    have : 0 ≤ e / s.config.DROWSY_EAR_THRESHOLD := div_nonneg he hT.le
    linarith
  have h2 : max (1/10 : ℚ) (1 - e / s.config.DROWSY_EAR_THRESHOLD) ≤ 1 :=
    max_le (by norm_num) h1
  have h3 : calculateConfidence s pose e FocusState.drowsy
      = max (1/10 : ℚ) (min 1 (max (1/10) (1 - e / s.config.DROWSY_EAR_THRESHOLD))) := rfl
  rw [h3, min_eq_right h2, max_eq_right (le_max_left _ _)]

/-- C6 amended: for fixed other inputs the Drowsy confidence is
non-increasing in EAR over the whole Drowsy-triggering range
`0 ≤ EAR < drowsyEarThreshold`; it strictly increases as EAR decreases
on `0 ≤ EAR ≤ 0.9 * drowsyEarThreshold` (where the formula is above the
0.1 floor); and on `0.9 * drowsyEarThreshold ≤ EAR < drowsyEarThreshold`
it equals the floor 0.1 exactly, hence is constant there. -/
theorem claim6_drowsy_monotone (s : DetectorState) (pose : HeadPose) (e1 e2 : ℚ)
    (hT : 0 < s.config.DROWSY_EAR_THRESHOLD) (h0 : 0 ≤ e1) (h12 : e1 < e2)
    (h2 : e2 < s.config.DROWSY_EAR_THRESHOLD) :
    calculateConfidence s pose e2 FocusState.drowsy
        ≤ calculateConfidence s pose e1 FocusState.drowsy
    ∧ (e2 ≤ 9/10 * s.config.DROWSY_EAR_THRESHOLD →
        calculateConfidence s pose e2 FocusState.drowsy
          < calculateConfidence s pose e1 FocusState.drowsy)
    ∧ (9/10 * s.config.DROWSY_EAR_THRESHOLD ≤ e2 →
        calculateConfidence s pose e2 FocusState.drowsy = 1/10) := by
  have hk1 := calculateConfidence_drowsy_eq s pose e1 hT h0
  have hk2 := calculateConfidence_drowsy_eq s pose e2 hT (h0.trans h12.le)
  have hdiv : e1 / s.config.DROWSY_EAR_THRESHOLD < e2 / s.config.DROWSY_EAR_THRESHOLD := by
    gcongr
  refine ⟨?_, ?_, ?_⟩
  · rw [hk1, hk2]
    exact max_le_max le_rfl (by linarith)
  · intro h9
    rw [hk1, hk2]
    have hfrac : e2 / s.config.DROWSY_EAR_THRESHOLD ≤ 9/10 := by
      rw [div_le_iff₀ hT]
      linarith
    have hge : (1:ℚ)/10 ≤ 1 - e2 / s.config.DROWSY_EAR_THRESHOLD := by linarith
    rw [max_eq_right hge]
    exact lt_of_lt_of_le (by linarith) (le_max_right _ _)
  · intro h9
    rw [hk2]
    have hfrac : (9:ℚ)/10 ≤ e2 / s.config.DROWSY_EAR_THRESHOLD := by
      rw [le_div_iff₀ hT]
      linarith
    exact max_eq_left (by linarith)

/-- Witness for C6 (amended): under the default threshold 0.25, EAR 0.2
versus 0.1 exercises the strict branch (confidences 0.2 < 0.6, since
0.2 is at most 0.9 * 0.25 = 0.225), and EAR 0.23 versus 0.1 exercises
the floor branch (0.23 is at least 0.225, confidence exactly 0.1). -/
theorem claim6_drowsy_monotone_witness :
    (0:ℚ) < (AIStateDetector.new 0).config.DROWSY_EAR_THRESHOLD
    ∧ (0:ℚ) ≤ 1/10
    ∧ (1:ℚ)/10 < 1/5
    ∧ (1:ℚ)/5 < (AIStateDetector.new 0).config.DROWSY_EAR_THRESHOLD
    ∧ (1:ℚ)/5 ≤ 9/10 * (AIStateDetector.new 0).config.DROWSY_EAR_THRESHOLD
    ∧ calculateConfidence (AIStateDetector.new 0) ⟨0, 0, 0⟩ (1/5) FocusState.drowsy
        < calculateConfidence (AIStateDetector.new 0) ⟨0, 0, 0⟩ (1/10) FocusState.drowsy
    ∧ (1:ℚ)/10 < 23/100
    ∧ (23:ℚ)/100 < (AIStateDetector.new 0).config.DROWSY_EAR_THRESHOLD
    ∧ 9/10 * (AIStateDetector.new 0).config.DROWSY_EAR_THRESHOLD ≤ (23:ℚ)/100
    ∧ calculateConfidence (AIStateDetector.new 0) ⟨0, 0, 0⟩ (23/100) FocusState.drowsy = 1/10 := by
  have hT : (0:ℚ) < (AIStateDetector.new 0).config.DROWSY_EAR_THRESHOLD := by
    norm_num [AIStateDetector.new, resetTimers, defaultConfig]
  have h2 : (1:ℚ)/5 < (AIStateDetector.new 0).config.DROWSY_EAR_THRESHOLD := by
    norm_num [AIStateDetector.new, resetTimers, defaultConfig]
  have h9 : (1:ℚ)/5 ≤ 9/10 * (AIStateDetector.new 0).config.DROWSY_EAR_THRESHOLD := by
    norm_num [AIStateDetector.new, resetTimers, defaultConfig]
  have h2f : (23:ℚ)/100 < (AIStateDetector.new 0).config.DROWSY_EAR_THRESHOLD := by
    norm_num [AIStateDetector.new, resetTimers, defaultConfig]
  have h9f : 9/10 * (AIStateDetector.new 0).config.DROWSY_EAR_THRESHOLD ≤ (23:ℚ)/100 := by
    norm_num [AIStateDetector.new, resetTimers, defaultConfig]
  have h := claim6_drowsy_monotone (AIStateDetector.new 0) ⟨0, 0, 0⟩ (1/10) (1/5)
    hT (by norm_num) (by norm_num) h2
  have hf := claim6_drowsy_monotone (AIStateDetector.new 0) ⟨0, 0, 0⟩ (1/10) (23/100)
    hT (by norm_num) (by norm_num) h2f
  exact ⟨hT, by norm_num, by norm_num, h2, h9, h.2.1 h9, by norm_num, h2f, h9f,
    hf.2.2 h9f⟩

/-! ## Claim C8: Unknown is initial-only on the classification path -/

/-- The emitted state of `applyTimeBasedLogic` is never Unknown when the
candidate is not Unknown. -/
theorem applyTimeBasedLogic_fst_ne_unknown (s : DetectorState) (c : FocusState) (now : ℤ)
    (hc : c ≠ FocusState.unknown) :
    (applyTimeBasedLogic s c now).1 ≠ FocusState.unknown := by
  cases c with
  | unknown => exact absurd rfl hc
  | focused => simp [applyTimeBasedLogic]
  | drowsy =>
      simp only [applyTimeBasedLogic]
      split <;> split <;> simp [getPreviousValidState]
  | distracted =>
      simp only [applyTimeBasedLogic]
      split <;> split <;> simp [getPreviousValidState]
  | relaxing =>
      simp only [applyTimeBasedLogic]
      split <;> split <;> simp [getPreviousValidState]

/-- C8: a fresh detector starts in Unknown; a classification call with a
non-empty landmark set neither emits Unknown nor stores Unknown; only
`reset()` returns the stored state to Unknown. -/
theorem claim8_unknown_initial_only (sqrt atanDeg : ℚ → ℚ) (s : DetectorState)
    (lms : List Landmark) (now t0 : ℤ) (h : lms ≠ []) :
    (AIStateDetector.new t0).currentState = FocusState.unknown
    ∧ (analyzeFaceLandmarks sqrt atanDeg s (some lms) now).1.state ≠ FocusState.unknown
    ∧ (analyzeFaceLandmarks sqrt atanDeg s (some lms) now).2.currentState ≠ FocusState.unknown
    ∧ (reset s now).currentState = FocusState.unknown := by
  have hlen : ¬ lms.length = 0 := by simpa using h
  rw [analyzeFaceLandmarks_nonempty sqrt atanDeg s lms now hlen]
  refine ⟨rfl, ?_, ?_, rfl⟩
  · exact applyTimeBasedLogic_fst_ne_unknown _ _ _
      (determineImmediateState_ne_unknown _ _ _)
  · rw [classifyMeasurement_snd, applyTimeBasedLogic_currentState]
    exact determineImmediateState_ne_unknown _ _ _

/-- Witness for C8 on a one-point landmark list. -/
theorem claim8_unknown_initial_only_witness :
    ([(⟨0, 0⟩ : Landmark)] ≠ [])
    ∧ ((AIStateDetector.new 3).currentState = FocusState.unknown
      ∧ (analyzeFaceLandmarks (fun _ => 0) (fun _ => 0) (AIStateDetector.new 0)
          (some [⟨0, 0⟩]) 5).1.state ≠ FocusState.unknown
      ∧ (analyzeFaceLandmarks (fun _ => 0) (fun _ => 0) (AIStateDetector.new 0)
          (some [⟨0, 0⟩]) 5).2.currentState ≠ FocusState.unknown
      ∧ (reset (AIStateDetector.new 0) 5).currentState = FocusState.unknown) := by
  have h : [(⟨0, 0⟩ : Landmark)] ≠ [] := by simp
  exact ⟨h, claim8_unknown_initial_only (fun _ => 0) (fun _ => 0) (AIStateDetector.new 0)
    [⟨0, 0⟩] 5 3 h⟩

/-! ## Claim C4: stateStartTime bookkeeping -/

/-- The state trace always begins with the starting state. -/
theorem stateTrace_head (s : DetectorState) (calls : List (HeadPose × ℚ × ℤ)) :
    (stateTrace s calls).head? = some s := by
  cases calls <;> rfl

/-- Per-call `stateStartTime` rule of a classification step: refreshed to
`now` exactly when the candidate differs from the stored state. -/
theorem classifyMeasurement_stateStartTime (s : DetectorState) (pose : HeadPose)
    (ear : ℚ) (now : ℤ) :
    (classifyMeasurement s pose ear now).2.stateStartTime =
      if determineImmediateState s pose ear ≠ s.currentState then now
      else s.stateStartTime := by
  rw [classifyMeasurement_snd, applyTimeBasedLogic_stateStartTime]

/-- Along any call sequence whose clock values are non-decreasing and
start no earlier than the stored clock base, the successive
`stateStartTime` values are non-decreasing. -/
theorem stateTrace_chain :
    ∀ (calls : List (HeadPose × ℚ × ℤ)) (s : DetectorState),
      List.Chain' (· ≤ ·) (s.stateStartTime :: calls.map (fun c => c.2.2)) →
      List.Chain' (· ≤ ·) ((stateTrace s calls).map (fun st => st.stateStartTime))
  | [], s, _ => by simp [stateTrace]
  | c :: cs, s, h => by
    rw [List.map_cons] at h
    obtain ⟨h1, h2⟩ := List.chain'_cons.mp h
    have hsst : (classifyMeasurement s c.1 c.2.1 c.2.2).2.stateStartTime = c.2.2
        ∨ (classifyMeasurement s c.1 c.2.1 c.2.2).2.stateStartTime = s.stateStartTime := by
      rw [classifyMeasurement_stateStartTime]
      split
      · exact Or.inl rfl
      · exact Or.inr rfl
    have hle : s.stateStartTime ≤ (classifyMeasurement s c.1 c.2.1 c.2.2).2.stateStartTime := by
      rcases hsst with h3 | h3 <;> rw [h3]
      exact h1
    have hle2 : (classifyMeasurement s c.1 c.2.1 c.2.2).2.stateStartTime ≤ c.2.2 := by
      rcases hsst with h3 | h3 <;> rw [h3]
      exact h1
    have htail : List.Chain' (· ≤ ·)
        ((classifyMeasurement s c.1 c.2.1 c.2.2).2.stateStartTime
          :: cs.map (fun c => c.2.2)) := by
      rcases cs with _ | ⟨d, ds⟩
      · simp
      · rw [List.map_cons] at h2 ⊢
        rw [List.chain'_cons] at h2 ⊢
        exact ⟨hle2.trans h2.1, h2.2⟩
    have hrec := stateTrace_chain cs (classifyMeasurement s c.1 c.2.1 c.2.2).2 htail
    rw [stateTrace]
    rcases htr : stateTrace (classifyMeasurement s c.1 c.2.1 c.2.2).2 cs with _ | ⟨u, us⟩
    · have hh := stateTrace_head (classifyMeasurement s c.1 c.2.1 c.2.2).2 cs
      rw [htr] at hh
      simp at hh
    · have hu : u = (classifyMeasurement s c.1 c.2.1 c.2.2).2 := by
        have hh := stateTrace_head (classifyMeasurement s c.1 c.2.1 c.2.2).2 cs
        rw [htr] at hh
        simpa using hh
      rw [htr] at hrec
      rw [List.map_cons, List.map_cons, List.chain'_cons]
      refine ⟨?_, ?_⟩
      · rw [hu]
        exact hle
      · rw [← List.map_cons]
        exact hrec

/-- C4: across a call sequence with non-decreasing clock the stored
`stateStartTime` is monotonically non-decreasing, and on each call it is
set to the current timestamp exactly when the candidate differs from the
stored `currentState`, and left unchanged otherwise. -/
theorem claim4_stateStartTime (s : DetectorState) (calls : List (HeadPose × ℚ × ℤ))
    (s1 : DetectorState) (pose : HeadPose) (ear : ℚ) (now : ℤ)
    (hclock : List.Chain' (· ≤ ·) (s.stateStartTime :: calls.map (fun c => c.2.2))) :
    List.Chain' (· ≤ ·) ((stateTrace s calls).map (fun st => st.stateStartTime))
    ∧ (classifyMeasurement s1 pose ear now).2.stateStartTime =
        (if determineImmediateState s1 pose ear ≠ s1.currentState then now
         else s1.stateStartTime) :=
  ⟨stateTrace_chain calls s hclock, classifyMeasurement_stateStartTime s1 pose ear now⟩

/-- Witness for C4 on a two-call trace with clock 0, 5, 10. -/
theorem claim4_stateStartTime_witness :
    List.Chain' (· ≤ ·) ((AIStateDetector.new 0).stateStartTime
        :: (([(⟨0, 0, 0⟩, 1/10, 5), (⟨0, 0, 0⟩, 1/2, 10)] : List (HeadPose × ℚ × ℤ)).map
          (fun c => c.2.2)))
    ∧ List.Chain' (· ≤ ·)
        ((stateTrace (AIStateDetector.new 0)
          [(⟨0, 0, 0⟩, 1/10, 5), (⟨0, 0, 0⟩, 1/2, 10)]).map (fun st => st.stateStartTime))
    ∧ (classifyMeasurement (AIStateDetector.new 0) ⟨0, 0, 0⟩ (1/10) 7).2.stateStartTime =
        (if determineImmediateState (AIStateDetector.new 0) ⟨0, 0, 0⟩ (1/10)
            ≠ (AIStateDetector.new 0).currentState then 7
         else (AIStateDetector.new 0).stateStartTime) := by
  have hclock : List.Chain' (· ≤ ·) ((AIStateDetector.new 0).stateStartTime
      :: (([(⟨0, 0, 0⟩, 1/10, 5), (⟨0, 0, 0⟩, 1/2, 10)] : List (HeadPose × ℚ × ℤ)).map
        (fun c => c.2.2))) := by
    simp [AIStateDetector.new, resetTimers, List.chain'_cons]
  have h := claim4_stateStartTime (AIStateDetector.new 0)
    [(⟨0, 0, 0⟩, 1/10, 5), (⟨0, 0, 0⟩, 1/2, 10)] (AIStateDetector.new 0) ⟨0, 0, 0⟩ (1/10) 7 hclock
  exact ⟨hclock, h.1, h.2⟩

end StudyAssistant
